import Mathlib

/-!
Verification of the Fee Computation & Resilient Caching Engine of the
chain-gas-fee-dashboard repository, shallowly embedding
`src/api/app/services/gas.py`, `src/api/app/services/rpc.py` and
`src/api/app/config.py`.

All gas/price/fee arithmetic is in integer wei space (`Nat`), matching the
source, which works on Python `int`s until display formatting.  Display
formatting (`_format_decimal`) uses Python `Decimal` fixed-point with
half-up rounding; for the payload's inputs (an integer divided by a power
of ten) this is modelled exactly by integer arithmetic in `formatScaled`.
-/

namespace GasDash

/-- Round-half-up division of natural numbers: `round_half_up (n / d)`.
Models `Decimal.to_integral_value(rounding=ROUND_HALF_UP)` applied to an
exact nonnegative quotient (the source's `Decimal` context has enough
precision for all realistic fee magnitudes).  Total: returns 0 when `d = 0`;
every call site in the embedding is guarded so that `d ≠ 0`. -/
def roundHalfUpDiv (n d : Nat) : Nat :=
  if d = 0 then 0 else (2 * n + d) / (2 * d)

/-- Left-pad a numeral string with zeros to the given width. -/
def padZeros (s : String) (width : Nat) : String :=
  String.mk (List.replicate (width - s.length) '0') ++ s

/-- Model of `_format_decimal(Decimal(wei) / 10^scale, outDigits)` from
`gas.py`: quantize `wei / 10^scale` to `outDigits` fractional digits with
half-up rounding and render with a fixed number of decimals (`".Nf"`). -/
def formatScaled (wei scale outDigits : Nat) : String :=
  let q := roundHalfUpDiv (wei * 10 ^ outDigits) (10 ^ scale)
  toString (q / 10 ^ outDigits) ++ "." ++ padZeros (toString (q % 10 ^ outDigits)) outDigits

/-- Value of a single hexadecimal digit, if any. -/
def hexDigit? (c : Char) : Option Nat :=
  if '0' ≤ c ∧ c ≤ '9' then some (c.toNat - '0'.toNat)
  else if 'a' ≤ c ∧ c ≤ 'f' then some (c.toNat - 'a'.toNat + 10)
  else if 'A' ≤ c ∧ c ≤ 'F' then some (c.toNat - 'A'.toNat + 10)
  else none

/-- Fold a nonempty list of hex digits into a number; `none` on any
non-hex character. -/
def hexDigits? (cs : List Char) : Option Nat :=
  match cs with
  | [] => none
  | _ => cs.foldlM (fun acc c => (hexDigit? c).map (fun d => acc * 16 + d)) 0

/-- Model of Python `int(s, 16)` for nonnegative inputs: an optional
`0x`/`0X` prescript followed by at least one hex digit.  `none` models a
raised `ValueError`. -/
def hexToNat? (s : String) : Option Nat :=
  let cs := s.data
  let cs := if cs.take 2 = ['0', 'x'] ∨ cs.take 2 = ['0', 'X'] then cs.drop 2 else cs
  hexDigits? cs

/-- JSON values as returned by `response.json()` in the transport layer. -/
inductive Jv where
  | nul
  | str (s : String)
  | num (n : Nat)
  | arr (xs : List Jv)
  | obj (fields : List (String × Jv))

/-- Python truthiness of a JSON value (used for `if rewards:` /
`if last_reward:` in `_effective_gas_price`). -/
def pyTruthy : Jv → Bool
  | .nul => false
  | .str s => !s.isEmpty
  | .num n => n != 0
  | .arr xs => !xs.isEmpty
  | .obj fs => !fs.isEmpty

/-- A raised Python exception, as observed by the `except` clauses of
`gas.py`: its class name (used in note strings), its `str(exc)` message,
and whether it is an instance of `RPCError` or `httpx.HTTPError` — the
only classes `get_chain_fee` catches. -/
structure RpcFailure where
  className : String
  message : String
  isRpcOrHttpError : Bool
  deriving DecidableEq, Repr

/-- `RPCError` from `rpc.py` (a plain `Exception` subclass; caught by
`get_chain_fee`). -/
def RpcFailure.rpc (m : String) : RpcFailure := ⟨"RPCError", m, true⟩

/-- `httpx.HTTPStatusError` raised by `response.raise_for_status()`
(an `httpx.HTTPError`, so caught by `get_chain_fee`). -/
def RpcFailure.httpStatusError (m : String) : RpcFailure := ⟨"HTTPStatusError", m, true⟩

/-- `httpx.RequestError` (connection failure; an `httpx.HTTPError`). -/
def RpcFailure.connectError (m : String) : RpcFailure := ⟨"ConnectError", m, true⟩

/-- `KeyError` from subscripting a dict with a missing key (not caught by
`get_chain_fee`). -/
def RpcFailure.keyError (m : String) : RpcFailure := ⟨"KeyError", m, false⟩

/-- `IndexError` from `list[-1]` / `list[0]` on an empty list. -/
def RpcFailure.indexError (m : String) : RpcFailure := ⟨"IndexError", m, false⟩

/-- `TypeError` from subscripting a non-container. -/
def RpcFailure.typeError (m : String) : RpcFailure := ⟨"TypeError", m, false⟩

/-- `ValueError` from `int(s, 16)` on a non-hex string. -/
def RpcFailure.valueError (m : String) : RpcFailure := ⟨"ValueError", m, false⟩

deriving instance DecidableEq for Except

/-- Python `d[k]` on a JSON value: `KeyError` on a missing key,
`TypeError` when the value is not an object. -/
def dictGet (v : Jv) (k : String) : Except RpcFailure Jv :=
  match v with
  | .obj fs =>
    match fs.lookup k with
    | some x => .ok x
    | none => .error (RpcFailure.keyError k)
  | _ => .error (RpcFailure.typeError k)

/-- Python `d.get(k)` on a JSON object: `none` when missing; `AttributeError`
(uncaught class) when the value is not an object. -/
def dictGetOpt (v : Jv) (k : String) : Except RpcFailure (Option Jv) :=
  match v with
  | .obj fs => .ok (fs.lookup k)
  | _ => .error ⟨"AttributeError", k, false⟩

/-- Python `xs[-1]` on a JSON list. -/
def jLast (v : Jv) : Except RpcFailure Jv :=
  match v with
  | .arr xs =>
    match xs.getLast? with
    | some x => .ok x
    | none => .error (RpcFailure.indexError "list index out of range")
  | _ => .error (RpcFailure.typeError "[-1]")

/-- Python `xs[0]` on a JSON list. -/
def jFirst (v : Jv) : Except RpcFailure Jv :=
  match v with
  | .arr xs =>
    match xs.head? with
    | some x => .ok x
    | none => .error (RpcFailure.indexError "list index out of range")
  | _ => .error (RpcFailure.typeError "[0]")

/-- `_hex_to_int` from `gas.py`: an `int` passes through; a string is
parsed base 16 (`ValueError` on failure); other shapes raise `TypeError`. -/
def hex_to_int (v : Jv) : Except RpcFailure Nat :=
  match v with
  | .num n => .ok n
  | .str s =>
    match hexToNat? s with
    | some n => .ok n
    | none => .error (RpcFailure.valueError s)
  | _ => .error (RpcFailure.typeError "int() argument")

/-- Chain profile from `ChainSettings` in `src/api/app/config.py`.

Modelled from the spec: the `erc20_gas_limit` and `erc20_token_symbol`
fields.  The spec's data model gives every ChainProfile an
"ERC-20-transfer gas-limit", `gas.py` / `routes/fees.py` and the test
suite read `chain.erc20_gas_limit` / `chain.erc20_token_symbol`
(tests pin the values 55000 / "WBTC" loaded from `shared/chains.json`,
which is outside `src/`), but the pydantic model in `config.py` does not
declare either field — see `chainSettingsDeclaredFields` and claim C1. -/
structure ChainSettings where
  key : String
  display_name : String
  symbol : String
  chain_id : Nat
  rpc_env : String
  native_gas_limit : Nat := 21000
  infura_network : Option String := none
  fee_model : String := "l1"
  price_symbol : Option String := none
  erc20_gas_limit : Nat
  erc20_token_symbol : String
  deriving DecidableEq, Repr

/-- The fields the pydantic `ChainSettings` model in
`src/api/app/config.py` actually declares (pydantic `BaseModel` with the
default `extra="ignore"` drops any other key of a `chains.json` record,
and reading an undeclared attribute raises `AttributeError`). -/
def chainSettingsDeclaredFields : List String :=
  ["key", "display_name", "symbol", "chain_id", "rpc_env",
   "native_gas_limit", "infura_network", "fee_model", "price_symbol"]

/-- The attributes `FeeSnapshot.as_payload` (and `_error_payload`) read
from `self.chain` in `gas.py`. -/
def asPayloadChainAttrs : List String :=
  ["key", "display_name", "symbol", "chain_id", "erc20_gas_limit", "erc20_token_symbol"]

/-- Application settings from `AppSettings` in `src/api/app/config.py`;
only the fields consumed by the modelled core are kept (paths, HTTP pool
and pricing settings are used by excluded collaborators). -/
structure AppSettings where
  cache_ttl_seconds : Nat := 60
  enable_precise_mode : Bool := false
  deriving DecidableEq, Repr

/-- `FeeComputation` dataclass from `gas.py`. -/
structure FeeComputation where
  gas_price_wei : Nat
  gas_used : Nat
  native_fee_wei : Nat
  mode : String
  notes : Option String := none
  l1_fee_wei : Nat := 0
  deriving DecidableEq, Repr

/-- `FeeSnapshot` dataclass from `gas.py` (capture time as an integer
timestamp; the source stores a float and truncates with `int(...)` when
rendering). -/
structure FeeSnapshot where
  chain : ChainSettings
  data : FeeComputation
  fetched_at : Nat
  deriving DecidableEq, Repr

/-- The dictionary produced by `FeeSnapshot.as_payload`, flattened.  The
`stale` key is absent from a fresh payload (`stale := false` models
absence); `debug_error` likewise.  A success payload never carries an
`"error"` key, which the separate `ErrorPayload` shape models. -/
structure Payload where
  chain_key : String
  chain_display_name : String
  chain_symbol : String
  chain_id : Nat
  gas_price_wei : Nat
  gas_price_gwei : String
  gas_limit : Nat
  native_fee_wei : Nat
  native_fee_formatted : String
  erc20_gas_limit : Nat
  erc20_token_symbol : String
  erc20_fee_wei : Nat
  erc20_fee_formatted : String
  fetched_at : Nat
  mode : String
  notes : Option String
  stale : Bool := false
  debug_error : Option String := none
  deriving DecidableEq, Repr

/-- The dictionary produced by `_error_payload` in `gas.py` (chain
identity, an `error` message, and an erc20 block with `None` fee). -/
structure ErrorPayload where
  chain_key : String
  chain_display_name : String
  chain_symbol : String
  chain_id : Nat
  error : String
  erc20_gas_limit : Nat
  erc20_token_symbol : String
  deriving DecidableEq, Repr

/-- `_combine_notes` from `gas.py`: drop falsy entries (`None` and `""`),
join the rest with `", "`, `None` when nothing remains. -/
def combine_notes (notes : List (Option String)) : Option String :=
  let filtered := (notes.filterMap id).filter (fun s => !s.isEmpty)
  match filtered with
  | [] => none
  | fs => some (String.intercalate ", " fs)

/-- `FeeSnapshot.as_payload` from `gas.py`: the erc20 fee is
`gas_price_wei * chain.erc20_gas_limit`, plus — only when both
`l1_fee_wei` and `gas_used` are truthy (nonzero) — the half-up-rounded
pro-rated L1 component `l1_fee_wei * erc20_gas_limit / gas_used`. -/
def FeeSnapshot.as_payload (s : FeeSnapshot) : Payload :=
  let base := s.data.gas_price_wei * s.chain.erc20_gas_limit
  let erc20_fee_wei :=
    if s.data.l1_fee_wei ≠ 0 ∧ s.data.gas_used ≠ 0 then
      base + roundHalfUpDiv (s.data.l1_fee_wei * s.chain.erc20_gas_limit) s.data.gas_used
    else base
  { chain_key := s.chain.key
    chain_display_name := s.chain.display_name
    chain_symbol := s.chain.symbol
    chain_id := s.chain.chain_id
    gas_price_wei := s.data.gas_price_wei
    gas_price_gwei := formatScaled s.data.gas_price_wei 9 4
    gas_limit := s.data.gas_used
    native_fee_wei := s.data.native_fee_wei
    native_fee_formatted := formatScaled s.data.native_fee_wei 18 8
    erc20_gas_limit := s.chain.erc20_gas_limit
    erc20_token_symbol := s.chain.erc20_token_symbol
    erc20_fee_wei := erc20_fee_wei
    erc20_fee_formatted := formatScaled erc20_fee_wei 18 8
    fetched_at := s.fetched_at
    mode := s.data.mode
    notes := s.data.notes }

/-- `_error_payload` from `gas.py`.  Note that the message is stored
verbatim (the caller passes the raw `str(exc)`). -/
def error_payload (chain : ChainSettings) (message : String) : ErrorPayload :=
  { chain_key := chain.key
    chain_display_name := chain.display_name
    chain_symbol := chain.symbol
    chain_id := chain.chain_id
    error := message
    erc20_gas_limit := chain.erc20_gas_limit
    erc20_token_symbol := chain.erc20_token_symbol }

/-- `_cache_key` from `gas.py`:
`f"{chain.key}:{chain.fee_model}:{int(precise and settings.enable_precise_mode)}"`. -/
def cache_key (chain : ChainSettings) (precise : Bool) (s : AppSettings) : String :=
  chain.key ++ ":" ++ chain.fee_model ++ ":" ++
    (if precise && s.enable_precise_mode then "1" else "0")

/-- A character the source's URL regex `https?://[^\s'\"]+` keeps
consuming: anything but (ASCII) whitespace, a single quote or a double
quote. -/
def isUrlChar (c : Char) : Bool :=
  !(c == ' ' || c == '\t' || c == '\n' || c == '\r' ||
    c == '\x0b' || c == '\x0c' || c == '\'' || c == '"')

/-- Length of the literal scheme part (`http://` = 7, `https://` = 8)
when the character list starts with one, else `none`. -/
def urlSchemeLen (cs : List Char) : Option Nat :=
  if cs.take 8 = "https://".data then some 8
  else if cs.take 7 = "http://".data then some 7
  else none

/-- The `_mask` replacement of `_sanitize_error_message`: a matched URL
becomes `scheme://netloc/***` where `urlparse`'s netloc runs up to the
first `/`, `?` or `#`; an empty netloc yields `[redacted]`. -/
def maskUrl (schemeLen : Nat) (run : List Char) : List Char :=
  let tail := run.drop schemeLen
  let netloc := tail.takeWhile (fun c => !(c == '/' || c == '?' || c == '#'))
  if netloc.isEmpty then "[redacted]".data
  else (run.take schemeLen) ++ netloc ++ "/***".data

/-- Left-to-right scan implementing `re.sub` with the pattern
`https?://[^\s'\"]+`: at each position, if the literal scheme occurs and
the maximal url-character run extends past it (the regex `+` requires at
least one more character), the whole run is replaced by its mask and the
scan resumes after it.  The `fuel` argument (initialised to the list
length, which bounds every recursive call) only makes the recursion
structural; it never runs out. -/
def sanitizeAux : Nat → List Char → List Char
  | 0, cs => cs
  | _ + 1, [] => []
  | fuel + 1, c :: cs =>
    match urlSchemeLen (c :: cs) with
    | some k =>
      let run := (c :: cs).takeWhile isUrlChar
      if k < run.length then
        maskUrl k run ++ sanitizeAux fuel ((c :: cs).drop run.length)
      else c :: sanitizeAux fuel cs
    | none => c :: sanitizeAux fuel cs

/-- `_sanitize_error_message` from `gas.py`. -/
def sanitize_error_message (message : String) : String :=
  String.mk (sanitizeAux message.data.length message.data)

/-- `_estimate_gas` from `gas.py`, as a function of the `eth_estimateGas`
transport outcome: on any failure use the fallback when given, otherwise
re-raise as `RPCError("estimateGas failed: ...")`. -/
def estimate_gas (resp : Except RpcFailure Jv) (fallback : Option Nat) :
    Except RpcFailure (Nat × Option String) :=
  match (do hex_to_int (← dictGet (← resp) "result") : Except RpcFailure Nat) with
  | .ok g => .ok (g, some "eth_estimateGas")
  | .error exc =>
    match fallback with
    | some f => .ok (f, some ("fallback:" ++ exc.className))
    | none => .error (RpcFailure.rpc ("estimateGas failed: " ++ exc.message))

/-- `_effective_gas_price` from `gas.py`, as a function of the
`eth_feeHistory`, `eth_maxPriorityFeePerGas` and `eth_gasPrice` transport
outcomes.  Returns `(gas_price_wei, note, mode)`.

Modelled from the spec: the configured reward percentile
(`settings.fee_history_reward_percentile`, "a configured reward
percentile" in the spec) is taken as the parameter `percentile`; the
`AppSettings` model in `src/api/app/config.py` does not declare that
field (reading it would raise `AttributeError` inside the `try`, which
the bare `except Exception` turns into the legacy `eth_gasPrice`
fallback — see claim C9's notes). -/
def effective_gas_price (fh mp gp : Except RpcFailure Jv) (percentile : Nat) :
    Except RpcFailure (Nat × String × String) :=
  let tryBranch : Except RpcFailure (Nat × String × String) := do
    let history ← fh
    let result ← dictGet history "result"
    let baseFee ← hex_to_int (← jLast (← dictGet result "baseFeePerGas"))
    let rewards ← dictGetOpt result "reward"
    let priorityFee? : Option Nat ←
      match rewards with
      | some rv =>
        if pyTruthy rv then do
          let lastReward ← jLast rv
          if pyTruthy lastReward then do
            pure (some (← hex_to_int (← jFirst lastReward)))
          else pure none
        else pure none
      | none => pure none
    let noteSuffix := "feeHistory(p" ++ toString percentile ++ ")"
    match priorityFee? with
    | some p => pure (baseFee + p, noteSuffix, "eip1559")
    | none => do
      let priority ← hex_to_int (← dictGet (← mp) "result")
      pure (baseFee + priority, noteSuffix ++ "+maxPriority", "eip1559")
  match tryBranch with
  | .ok r => .ok r
  | .error exc => do
    let price ← hex_to_int (← dictGet (← gp) "result")
    pure (price, "fallback gasPrice (" ++ exc.className ++ ")", "legacy")

/-- `_compute_fee_l1` from `gas.py`, as a function of the transport
outcomes of its four possible RPC calls. -/
def compute_fee_l1 (chain : ChainSettings) (est fh mp gp : Except RpcFailure Jv)
    (percentile : Nat) : Except RpcFailure FeeComputation :=
  match estimate_gas est (some chain.native_gas_limit) with
  | .error e => .error e
  | .ok (gasUsed, gasNote) =>
    match effective_gas_price fh mp gp percentile with
    | .error e => .error e
    | .ok (gasPrice, priceNote, priceMode) =>
      .ok { gas_price_wei := gasPrice
            gas_used := gasUsed
            native_fee_wei := gasUsed * gasPrice
            mode := "l1:" ++ priceMode
            notes := combine_notes [gasNote, some priceNote]
            l1_fee_wei := 0 }

/-- `_compute_fee_arbitrum` from `gas.py`: no gas-estimate fallback, and
the notes record the built-in L1 buffer. -/
def compute_fee_arbitrum (_chain : ChainSettings) (est fh mp gp : Except RpcFailure Jv)
    (percentile : Nat) : Except RpcFailure FeeComputation :=
  match estimate_gas est none with
  | .error e => .error e
  | .ok (gasUsed, gasNote) =>
    match effective_gas_price fh mp gp percentile with
    | .error e => .error e
    | .ok (gasPrice, priceNote, priceMode) =>
      .ok { gas_price_wei := gasPrice
            gas_used := gasUsed
            native_fee_wei := gasUsed * gasPrice
            mode := "arbitrum:" ++ priceMode
            notes := combine_notes [some "estimateGas includes L1 buffer", gasNote, some priceNote]
            l1_fee_wei := 0 }

/-- `_optimism_l1_fee` from `gas.py`, as a function of the `eth_call`
transport outcome for the GasPriceOracle: any failure degrades to an L1
fee of 0 with a fallback note (the RLP/ABI encoding of the synthetic
transaction only shapes the request and cannot change this result). -/
def optimism_l1_fee (callResp : Except RpcFailure Jv) : Nat × String :=
  match (do hex_to_int (← dictGet (← callResp) "result") : Except RpcFailure Nat) with
  | .ok fee => (fee, "GasPriceOracle.getL1Fee")
  | .error exc => (0, "optimism l1 fee fallback (" ++ exc.className ++ ")")

/-- `_compute_fee_optimism` from `gas.py`: gas via `eth_estimateGas`
(no fallback), price via plain `eth_gasPrice`, plus the oracle L1 fee;
`native_fee = gas_used * gas_price + l1_fee`. -/
def compute_fee_optimism (_chain : ChainSettings)
    (est gasPriceResp callResp : Except RpcFailure Jv) : Except RpcFailure FeeComputation :=
  match estimate_gas est none with
  | .error e => .error e
  | .ok (gasUsed, gasNote) =>
    match (do hex_to_int (← dictGet (← gasPriceResp) "result") : Except RpcFailure Nat) with
    | .error e => .error e
    | .ok gasPrice =>
      let l1 := optimism_l1_fee callResp
      .ok { gas_price_wei := gasPrice
            gas_used := gasUsed
            native_fee_wei := gasUsed * gasPrice + l1.1
            mode := "optimism:l2+l1"
            notes := combine_notes [gasNote, some "eth_gasPrice", some l1.2]
            l1_fee_wei := l1.1 }

/-- The `linea_estimateGas` parse of `_compute_fee_linea`: the result may
be a raw hex value or an object carrying a `gasLimit` field. -/
def linea_gas (lineaResp : Except RpcFailure Jv) : Except RpcFailure Nat := do
  let raw ← dictGet (← lineaResp) "result"
  match raw with
  | .obj fs =>
    match fs.lookup "gasLimit" with
    | some v => hex_to_int v
    | none => hex_to_int raw
  | _ => hex_to_int raw

/-- `_compute_fee_linea` from `gas.py`: try `linea_estimateGas`; on any
failure fall back to the generic `eth_estimateGas` path (with the chain's
constant fallback, so that path cannot fail) and overwrite the gas note
with the fallback marker. -/
def compute_fee_linea (chain : ChainSettings) (lineaResp est fh mp gp : Except RpcFailure Jv)
    (percentile : Nat) : Except RpcFailure FeeComputation :=
  match (match linea_gas lineaResp with
         | .ok g => (.ok (g, some "linea_estimateGas") :
             Except RpcFailure (Nat × Option String))
         | .error exc =>
           match estimate_gas est (some chain.native_gas_limit) with
           | .ok (g, _) => .ok (g, some ("fallback estimateGas (" ++ exc.className ++ ")"))
           | .error e => .error e) with
  | .error e => .error e
  | .ok (gasUsed, gasNote) =>
    match effective_gas_price fh mp gp percentile with
    | .error e => .error e
    | .ok (gasPrice, priceNote, priceMode) =>
      .ok { gas_price_wei := gasPrice
            gas_used := gasUsed
            native_fee_wei := gasUsed * gasPrice
            mode := "linea:" ++ priceMode
            notes := combine_notes [gasNote, some priceNote]
            l1_fee_wei := 0 }

/-- Insert/overwrite a key in an association-list map (first match wins
on lookup, so consing a fresh binding models `m[key] = value`). -/
def setKey (m : List (String × FeeSnapshot)) (k : String) (v : FeeSnapshot) :
    List (String × FeeSnapshot) :=
  (k, v) :: m

/-- Remove a key from an association-list map (models `m.pop(key, None)`
and TTL expiry / capacity eviction of that entry). -/
def eraseKey (m : List (String × FeeSnapshot)) (k : String) :
    List (String × FeeSnapshot) :=
  m.filter (fun p => p.1 != k)

/-- The module-level cache state of `gas.py`: `_fee_cache` (the
TTL-bounded primary cache; presence of a key models a live, unexpired
entry — expiry and capacity eviction are modelled as `eraseKey`) and
`_stale_cache` (the unbounded last-known-good store). -/
structure GasState where
  fee : List (String × FeeSnapshot)
  stale : List (String × FeeSnapshot)
  deriving DecidableEq, Repr

/-- What `get_chain_fee` hands back on a non-raising path: a (fresh or
stale) snapshot payload, or the structured per-chain error payload. -/
inductive GasResponse where
  | payload (p : Payload)
  | errorPayload (e : ErrorPayload)
  deriving DecidableEq, Repr

/-- The stale-degraded payload built by `get_chain_fee`'s failure branch:
the last-known-good payload with its notes extended by
`stale cache (<error class>)`, `stale: true`, and a sanitized debug
message. -/
def stale_payload (snap : FeeSnapshot) (exc : RpcFailure) : Payload :=
  { snap.as_payload with
    notes := combine_notes
      [snap.as_payload.notes, some ("stale cache (" ++ exc.className ++ ")")]
    stale := true
    debug_error := some (sanitize_error_message exc.message) }

/-- `get_chain_fee` from `gas.py`, with the live computation
(`_compute_fee`) abstracted as its outcome `compute` (consulted only on a
cache miss) and wall-clock time as `now`.  The returned `Bool` records
whether the upstream computation was invoked (i.e. whether any network
round-trip happened).  The outer `Except` models exceptions escaping to
the caller: only `RPCError` and `httpx.HTTPError` instances are caught. -/
def get_chain_fee (st : GasState) (chain : ChainSettings) (s : AppSettings)
    (precise force_refresh : Bool) (compute : Except RpcFailure FeeComputation)
    (now : Nat) : Except RpcFailure (GasResponse × GasState × Bool) :=
  let key := cache_key chain precise s
  let st1 : GasState :=
    match force_refresh with
    | true => { st with fee := eraseKey st.fee key }
    | false => st
  match st1.fee.lookup key with
  | some snap => .ok (.payload snap.as_payload, st1, false)
  | none =>
    match compute with
    | .error exc =>
      if exc.isRpcOrHttpError then
        match st1.stale.lookup key with
        | some snap => .ok (.payload (stale_payload snap exc), st1, true)
        | none => .ok (.errorPayload (error_payload chain exc.message), st1, true)
      else .error exc
    | .ok c =>
      let snap : FeeSnapshot := ⟨chain, c, now⟩
      .ok (.payload snap.as_payload,
           { fee := setKey st1.fee key snap, stale := setKey st1.stale key snap }, true)

/-- Whether an `Except` models a raised (escaping) exception. -/
def exceptEscapes {α : Type} : Except RpcFailure α → Bool
  | .error _ => true
  | .ok _ => false

/-- HTTP-level outcome of one POST attempt inside `call_rpc`: a 2xx
response with a JSON body, a status error raised by
`raise_for_status()` (carrying the status code and the httpx message), or
a connection-level `httpx.RequestError`. -/
inductive HttpAttempt where
  | ok (data : Jv)
  | status (code : Nat) (msg : String)
  | connError (msg : String)

/-- `RETRYABLE_STATUS` from `rpc.py`. -/
def retryableStatus (code : Nat) : Bool :=
  code == 429 || code == 500 || code == 502 || code == 503 || code == 504

/-- An ASCII single quote (used in Python exception/`repr` texts; built
from its code point to keep the rendering explicit). -/
def pySingleQuote : String := String.singleton (Char.ofNat 39)

/-- Python's type name for a decoded JSON value, as it appears in
`TypeError`/`AttributeError` messages. -/
def pyTypeName : Jv → String
  | .str _ => "str"
  | .num _ => "int"
  | .nul => "NoneType"
  | .arr _ => "list"
  | .obj _ => "dict"

mutual

/-- Python `repr` of a decoded JSON value (string escaping not modelled:
the values in scope are plain). -/
def pyRepr : Jv → String
  | .str s => pySingleQuote ++ s ++ pySingleQuote
  | .num n => toString n
  | .nul => "None"
  | .arr xs => "[" ++ String.intercalate ", " (pyReprList xs) ++ "]"
  | .obj fs =>
    String.singleton (Char.ofNat 123) ++ String.intercalate ", " (pyReprFields fs) ++
      String.singleton (Char.ofNat 125)

/-- `repr` of each element of a JSON array. -/
def pyReprList : List Jv → List String
  | [] => []
  | v :: vs => pyRepr v :: pyReprList vs

/-- `repr` of each `key: value` entry of a JSON object. -/
def pyReprFields : List (String × Jv) → List String
  | [] => []
  | p :: ps => (pySingleQuote ++ p.1 ++ pySingleQuote ++ ": " ++ pyRepr p.2) :: pyReprFields ps

end

/-- Python `str` of a decoded JSON value: the string itself for strings,
`repr` otherwise (this is what `str(exc)` yields for an exception raised
with that value as its argument). -/
def pyStr : Jv → String
  | .str s => s
  | v => pyRepr v

/-- `data["error"].get("message", "unknown RPC error")` for an *object*
`error` value (the only shape on which `.get` exists), rendered the way
`str(RPCError(message))` later prints it. -/
def rpcErrorMessage (efs : List (String × Jv)) : String :=
  match efs.lookup "message" with
  | some v => pyStr v
  | none => "unknown RPC error"

/-- The `AttributeError` raised by `value.get(...)` when `data["error"]`
is not a dict: `'<type>' object has no attribute 'get'`. -/
def RpcFailure.attrNoGet (e : Jv) : RpcFailure :=
  ⟨"AttributeError",
   pySingleQuote ++ pyTypeName e ++ pySingleQuote ++ " object has no attribute " ++
     pySingleQuote ++ "get" ++ pySingleQuote, false⟩

/-- Substring containment on character lists (Python `needle in hay` for
strings). -/
def listContainsSub (needle : List Char) : List Char → Bool
  | [] => needle.isEmpty
  | c :: rest => needle.isPrefixOf (c :: rest) || listContainsSub needle rest

/-- The `if "error" in data: ... return data` block of `call_rpc`
(rpc.py:39-42), run inside the `try`, on the decoded body `data`:

* object body: key membership; when the `error` value is itself an object,
  `RPCError(error.get("message", "unknown RPC error"))` is raised (caught
  by neither `except` clause — re-raised, no retry); when it is any other
  shape, `.get` raises `AttributeError` (also uncaught);
* string body: Python `in` is a substring test, and a hit then subscripts
  the string with `"error"`, raising `TypeError`; otherwise the string is
  returned;
* list body: `in` is element membership (equality against the string
  `"error"`), and a hit then raises `TypeError` on `data["error"]`;
  otherwise the list is returned;
* number / null body: the membership test itself raises `TypeError`
  (`argument of type '<type>' is not iterable`).

The `TypeError` texts are CPython's (version-representative); no claim
depends on them. -/
def processBody (data : Jv) : Except RpcFailure Jv :=
  match data with
  | .obj fs =>
    match fs.lookup "error" with
    | some (.obj efs) => .error (RpcFailure.rpc (rpcErrorMessage efs))
    | some e => .error (RpcFailure.attrNoGet e)
    | none => .ok data
  | .str s =>
    if listContainsSub "error".data s.data then
      .error (RpcFailure.typeError "string indices must be integers")
    else .ok data
  | .arr xs =>
    if xs.any (fun v => match v with | .str s => s == "error" | _ => false) then
      .error (RpcFailure.typeError "list indices must be integers or slices, not str")
    else .ok data
  | .num _ =>
    .error (RpcFailure.typeError
      ("argument of type " ++ pySingleQuote ++ "int" ++ pySingleQuote ++ " is not iterable"))
  | .nul =>
    .error (RpcFailure.typeError
      ("argument of type " ++ pySingleQuote ++ "NoneType" ++ pySingleQuote ++
        " is not iterable"))

/-- Result of a `call_rpc` run: the returned JSON body or the raised
exception, together with the sequence of back-off sleeps performed. -/
structure RpcCallResult where
  result : Except RpcFailure Jv
  sleeps : List ℚ

/-- The exception a `call_rpc` run raised, if any. -/
def raisedFailure (r : RpcCallResult) : Option RpcFailure :=
  match r.result with
  | .error e => some e
  | .ok _ => none

/-- The retry loop of `call_rpc` from `rpc.py`.  `attempt` is the current
attempt index, `remaining = retries - attempt` the retries still
allowed.  A 2xx body is handed to `processBody` (its `RPCError` /
`AttributeError` / `TypeError` outcomes match neither `except` clause, so
they propagate at once); an `HTTPStatusError` is retried only while
retries remain and the status is in `RETRYABLE_STATUS`; a `RequestError`
is retried while retries remain; each retry sleeps the current back-off
and doubles it. -/
def call_rpc_aux (attempts : Nat → HttpAttempt) (attempt remaining : Nat)
    (backoff : ℚ) (sleeps : List ℚ) : RpcCallResult :=
  match attempts attempt, remaining with
  | .ok data, _ => ⟨processBody data, sleeps⟩
  | .status code msg, r + 1 =>
    if retryableStatus code then
      call_rpc_aux attempts (attempt + 1) r (2 * backoff) (sleeps ++ [backoff])
    else ⟨.error (RpcFailure.httpStatusError msg), sleeps⟩
  | .status _ msg, 0 => ⟨.error (RpcFailure.httpStatusError msg), sleeps⟩
  | .connError _, r + 1 =>
    call_rpc_aux attempts (attempt + 1) r (2 * backoff) (sleeps ++ [backoff])
  | .connError msg, 0 => ⟨.error (RpcFailure.connectError msg), sleeps⟩

/-- `call_rpc` from `rpc.py`, as a function of the per-attempt HTTP
outcomes; the defaults mirror the source (`retries: int = 2`,
`initial_backoff: float = 0.5`). -/
def call_rpc (attempts : Nat → HttpAttempt) (retries : Nat := 2)
    (initial_backoff : ℚ := 1/2) : RpcCallResult :=
  call_rpc_aux attempts 0 retries initial_backoff []

/-- An attempt outcome the loop may retry on: a connection error, or an
HTTP status in `RETRYABLE_STATUS`. -/
def transientAttempt : HttpAttempt → Bool
  | .connError _ => true
  | .status code _ => retryableStatus code
  | .ok _ => false

/-- How the loop's final (non-retried) attempt determines its result:
a 2xx body is decided by `processBody` (`RPCError` on an object-valued
top-level `error` member, `AttributeError`/`TypeError` on the malformed
shapes, the body itself otherwise); a non-retried status error or an
exhausted connection error is re-raised. -/
def finalMatches : HttpAttempt → Except RpcFailure Jv → Prop
  | .ok data, r => r = processBody data
  | .status _ msg, r => r = .error (RpcFailure.httpStatusError msg)
  | .connError msg, r => r = .error (RpcFailure.connectError msg)

/-! ### Concrete fixtures (mirroring the repository's test environment) -/

/-- The avalanche chain profile as the tests configure it. -/
def chainEx : ChainSettings :=
  { key := "avalanche", display_name := "Avalanche", symbol := "AVAX",
    chain_id := 43114, rpc_env := "RPC_AVALANCHE_URL",
    erc20_gas_limit := 55000, erc20_token_symbol := "WBTC" }

/-- Default application settings (`enable_precise_mode = False`). -/
def sOff : AppSettings := {}

/-- Application settings with precise mode enabled. -/
def sOn : AppSettings := { enable_precise_mode := true }

/-- A successful `eth_estimateGas` body (21000 gas). -/
def estOkResp : Except RpcFailure Jv :=
  .ok (.obj [("jsonrpc", .str "2.0"), ("id", .num 1), ("result", .str "0x5208")])

/-- A successful `eth_feeHistory` body: latest base fee `0x3b9aca00`,
latest reward list `["0x77359400"]` (the shape the test handler returns). -/
def fhOkResp : Except RpcFailure Jv :=
  .ok (.obj [("jsonrpc", .str "2.0"), ("id", .num 1),
    ("result", .obj
      [("baseFeePerGas", .arr [.str "0x3b9aca00", .str "0x3b9aca00"]),
       ("reward", .arr [.arr [.str "0x77359400"], .arr [.str "0x77359400"]])])])

/-- An `eth_maxPriorityFeePerGas` outcome that is never consulted (the
reward list already supplies a priority fee on the paths using it). -/
def mpErrResp : Except RpcFailure Jv := .error (RpcFailure.rpc "not consulted")

/-- A successful `eth_gasPrice` body (`0x3b9aca00` = 1 gwei). -/
def gpOkResp : Except RpcFailure Jv :=
  .ok (.obj [("jsonrpc", .str "2.0"), ("id", .num 1), ("result", .str "0x3b9aca00")])

/-- A malformed `eth_gasPrice` body whose result is not hex. -/
def gpBadResp : Except RpcFailure Jv :=
  .ok (.obj [("jsonrpc", .str "2.0"), ("id", .num 1), ("result", .str "zz")])

/-- A successful `linea_estimateGas` body (`0x5300` = 21248 gas). -/
def lineaOkResp : Except RpcFailure Jv :=
  .ok (.obj [("jsonrpc", .str "2.0"), ("id", .num 1), ("result", .str "0x5300")])

/-- A successful GasPriceOracle `eth_call` body
(`0x174876e800` = 100_000_000_000 wei of L1 fee). -/
def opCallResp : Except RpcFailure Jv :=
  .ok (.obj [("jsonrpc", .str "2.0"), ("id", .num 1), ("result", .str "0x174876e800")])

/-- The `FeeComputation` the l1 strategy produces from
`estOkResp`/`fhOkResp`/`gpOkResp` at percentile 50. -/
def cL1ex : FeeComputation :=
  { gas_price_wei := 3000000000, gas_used := 21000,
    native_fee_wei := 63000000000000, mode := "l1:eip1559",
    notes := some "eth_estimateGas, feeHistory(p50)", l1_fee_wei := 0 }

/-- The arbitrum strategy's output on the same responses. -/
def cArbEx : FeeComputation :=
  { gas_price_wei := 3000000000, gas_used := 21000,
    native_fee_wei := 63000000000000, mode := "arbitrum:eip1559",
    notes := some "estimateGas includes L1 buffer, eth_estimateGas, feeHistory(p50)",
    l1_fee_wei := 0 }

/-- The linea strategy's output (`linea_estimateGas` = 21248 gas). -/
def cLinEx : FeeComputation :=
  { gas_price_wei := 3000000000, gas_used := 21248,
    native_fee_wei := 63744000000000, mode := "linea:eip1559",
    notes := some "linea_estimateGas, feeHistory(p50)", l1_fee_wei := 0 }

/-- The optimism strategy's output (gas 21000, price 1 gwei via
`eth_gasPrice`, L1 fee 100_000_000_000 via the oracle call). -/
def cOpEx : FeeComputation :=
  { gas_price_wei := 1000000000, gas_used := 21000,
    native_fee_wei := 21100000000000, mode := "optimism:l2+l1",
    notes := some "eth_estimateGas, eth_gasPrice, GasPriceOracle.getL1Fee",
    l1_fee_wei := 100000000000 }

/-- The snapshot a first successful call stores at time 100. -/
def snapEx : FeeSnapshot := ⟨chainEx, cL1ex, 100⟩

/-- `cache_key chainEx false sOff`, spelled out. -/
def keyEx : String := "avalanche:l1:0"

/-- Cache state after one successful computation for `keyEx`. -/
def stEx : GasState := ⟨[(keyEx, snapEx)], [(keyEx, snapEx)]⟩

/-- An `httpx.HTTPStatusError` whose message embeds the endpoint URL (as
the real exception text does). -/
def fEx : RpcFailure :=
  RpcFailure.httpStatusError "Server error 503 for url https://rpc.test/avax"

/-- An error message carrying a credentialed endpoint path. -/
def urlMsg : String := "RPC https://rpc.avax.example/v3/supersecret failed"

/-! ### Association-list map lemmas -/

theorem lookup_setKey_self (m : List (String × FeeSnapshot)) (k : String) (v : FeeSnapshot) :
    (setKey m k v).lookup k = some v := by
  simp [setKey, List.lookup]

theorem lookup_setKey_ne (m : List (String × FeeSnapshot)) (k k' : String) (v : FeeSnapshot)
    (h : k' ≠ k) : (setKey m k v).lookup k' = m.lookup k' := by
  simp [setKey, List.lookup, beq_eq_false_iff_ne.mpr h]

theorem lookup_eraseKey_self (m : List (String × FeeSnapshot)) (k : String) :
    (eraseKey m k).lookup k = none := by
  induction m with
  | nil => rfl
  | cons p m ih =>
    by_cases hp : p.1 = k
    · simpa [eraseKey, hp] using ih
    · simp only [eraseKey, List.filter] at ih ⊢
      rw [show (p.1 != k) = true by simpa using hp]
      simp only [List.lookup]
      rw [show (k == p.1) = false from beq_eq_false_iff_ne.mpr (Ne.symm hp)]
      exact ih

theorem lookup_eraseKey_ne (m : List (String × FeeSnapshot)) (k k' : String) (h : k' ≠ k) :
    (eraseKey m k).lookup k' = m.lookup k' := by
  induction m with
  | nil => rfl
  | cons p m ih =>
    by_cases hp : p.1 = k
    · have hk : (k' == p.1) = false := beq_eq_false_iff_ne.mpr (hp ▸ h)
      simp only [eraseKey, List.filter] at ih ⊢
      rw [show (p.1 != k) = false by simpa using hp]
      simp only [List.lookup, hk, ih]
    · simp only [eraseKey, List.filter] at ih ⊢
      rw [show (p.1 != k) = true by simpa using hp]
      simp only [List.lookup]
      cases hkk : (k' == p.1) with
      | true => rfl
      | false => simpa [eraseKey] using ih

/-! ### Claim theorems -/

/-- C1: for every chain profile and successful fee computation, the
payload's erc20 fee equals `gas_price_wei * chain.erc20_gas_limit`, plus
— exactly when an optimism-model L1 fee (and a nonzero gas estimate) is
present — `round_half_up(l1_fee_wei * erc20_gas_limit / gas_used)`; the
second conjunct of the first part records the code bug the claim's
presupposition trips over: `as_payload` reads `chain.erc20_gas_limit`,
but the pydantic `ChainSettings` model in `config.py` declares no such
field, so rendering any real payload raises `AttributeError` (the tests,
which assert `erc20.gas_limit == 55000`, contradict the shipped model). -/
theorem erc20_fee_formula_and_missing_field :
    ("erc20_gas_limit" ∈ asPayloadChainAttrs
      ∧ "erc20_gas_limit" ∉ chainSettingsDeclaredFields)
    ∧ ∀ (ch : ChainSettings) (d : FeeComputation) (t : Nat),
        (FeeSnapshot.as_payload ⟨ch, d, t⟩).erc20_fee_wei =
          d.gas_price_wei * ch.erc20_gas_limit +
            (if d.l1_fee_wei ≠ 0 ∧ d.gas_used ≠ 0 then
              roundHalfUpDiv (d.l1_fee_wei * ch.erc20_gas_limit) d.gas_used
             else 0) := by
  refine ⟨by decide, fun ch d t => ?_⟩
  simp only [FeeSnapshot.as_payload]
  split
  · rfl
  · simp

/-- C10: rendering a snapshot to a payload is total, and the pro-rated L1
component (the only division in `as_payload`, by `gas_used`) is guarded
by the truthiness of both `l1_fee_wei` and `gas_used`: a snapshot with
`gas_used = 0` (or `l1_fee_wei = 0`) renders with no L1 addition and no
division by zero. -/
theorem as_payload_total_no_div_by_zero :
    ∀ (ch : ChainSettings) (d : FeeComputation) (t : Nat),
      (d.gas_used = 0 →
        (FeeSnapshot.as_payload ⟨ch, d, t⟩).erc20_fee_wei =
          d.gas_price_wei * ch.erc20_gas_limit)
      ∧ (d.l1_fee_wei = 0 →
        (FeeSnapshot.as_payload ⟨ch, d, t⟩).erc20_fee_wei =
          d.gas_price_wei * ch.erc20_gas_limit) := by
  intro ch d t
  constructor
  · intro h0
    simp only [FeeSnapshot.as_payload]
    rw [if_neg (by simp [h0])]
  · intro h0
    simp only [FeeSnapshot.as_payload]
    rw [if_neg (by simp [h0])]

theorem as_payload_total_no_div_by_zero_witness :
    (FeeSnapshot.as_payload ⟨chainEx, ⟨5, 0, 0, "x", none, 7⟩, 0⟩).erc20_fee_wei =
      5 * chainEx.erc20_gas_limit
    ∧ (FeeSnapshot.as_payload ⟨chainEx, ⟨5, 9, 45, "x", none, 0⟩, 0⟩).erc20_fee_wei =
      5 * chainEx.erc20_gas_limit :=
  ⟨(as_payload_total_no_div_by_zero chainEx ⟨5, 0, 0, "x", none, 7⟩ 0).1 rfl,
   (as_payload_total_no_div_by_zero chainEx ⟨5, 9, 45, "x", none, 0⟩ 0).2 rfl⟩

/-- C2: every `FeeComputation` any of the four strategies returns
satisfies `native_fee_wei = gas_price_wei * gas_used` with
`l1_fee_wei = 0` for the l1/arbitrum/linea models, and
`native_fee_wei = gas_price_wei * gas_used + l1_fee_wei` for optimism. -/
theorem strategies_native_fee_invariant :
    (∀ chain est fh mp gp pct c, compute_fee_l1 chain est fh mp gp pct = .ok c →
        c.native_fee_wei = c.gas_price_wei * c.gas_used ∧ c.l1_fee_wei = 0)
    ∧ (∀ chain est fh mp gp pct c, compute_fee_arbitrum chain est fh mp gp pct = .ok c →
        c.native_fee_wei = c.gas_price_wei * c.gas_used ∧ c.l1_fee_wei = 0)
    ∧ (∀ chain lin est fh mp gp pct c, compute_fee_linea chain lin est fh mp gp pct = .ok c →
        c.native_fee_wei = c.gas_price_wei * c.gas_used ∧ c.l1_fee_wei = 0)
    ∧ (∀ chain est gpr callr c, compute_fee_optimism chain est gpr callr = .ok c →
        c.native_fee_wei = c.gas_price_wei * c.gas_used + c.l1_fee_wei) := by
  refine ⟨?_, ?_, ?_, ?_⟩
  · intro chain est fh mp gp pct c h
    unfold compute_fee_l1 at h
    split at h
    · simp at h
    · split at h
      · simp at h
      · injection h with h
        subst h
        exact ⟨Nat.mul_comm _ _, rfl⟩
  · intro chain est fh mp gp pct c h
    unfold compute_fee_arbitrum at h
    split at h
    · simp at h
    · split at h
      · simp at h
      · injection h with h
        subst h
        exact ⟨Nat.mul_comm _ _, rfl⟩
  · intro chain lin est fh mp gp pct c h
    unfold compute_fee_linea at h
    split at h
    · simp at h
    · split at h
      · simp at h
      · injection h with h
        subst h
        exact ⟨Nat.mul_comm _ _, rfl⟩
  · intro chain est gpr callr c h
    unfold compute_fee_optimism at h
    split at h
    · simp at h
    · split at h
      · simp at h
      · injection h with h
        subst h
        exact Nat.mul_comm _ _ ▸ rfl

theorem strategies_native_fee_invariant_witness :
    (cL1ex.native_fee_wei = cL1ex.gas_price_wei * cL1ex.gas_used ∧ cL1ex.l1_fee_wei = 0)
    ∧ (cArbEx.native_fee_wei = cArbEx.gas_price_wei * cArbEx.gas_used ∧ cArbEx.l1_fee_wei = 0)
    ∧ (cLinEx.native_fee_wei = cLinEx.gas_price_wei * cLinEx.gas_used ∧ cLinEx.l1_fee_wei = 0)
    ∧ cOpEx.native_fee_wei = cOpEx.gas_price_wei * cOpEx.gas_used + cOpEx.l1_fee_wei :=
  ⟨strategies_native_fee_invariant.1 chainEx estOkResp fhOkResp mpErrResp gpOkResp 50 cL1ex
      (by decide),
   strategies_native_fee_invariant.2.1 chainEx estOkResp fhOkResp mpErrResp gpOkResp 50 cArbEx
      (by decide),
   strategies_native_fee_invariant.2.2.1 chainEx lineaOkResp estOkResp fhOkResp mpErrResp
      gpOkResp 50 cLinEx (by decide),
   strategies_native_fee_invariant.2.2.2 chainEx estOkResp gpOkResp opCallResp cOpEx
      (by decide)⟩

/-- No two strings that agree except for a final `"1"` vs `"0"` are equal. -/
theorem append_one_ne_zero (p : String) : p ++ "1" ≠ p ++ "0" := by
  intro h
  have h2 : (p ++ "1").data = (p ++ "0").data := congrArg String.data h
  rw [String.data_append, String.data_append] at h2
  exact absurd (List.append_cancel_left h2) (by decide)

/-- `get_chain_fee` reads and writes no cache key other than
`cache_key chain precise s`. -/
theorem gcf_state_isolation :
    ∀ st chain s precise force compute now resp st1 used k,
      get_chain_fee st chain s precise force compute now = .ok (resp, st1, used) →
      k ≠ cache_key chain precise s →
      st1.fee.lookup k = st.fee.lookup k ∧ st1.stale.lookup k = st.stale.lookup k := by
  intro st chain s precise force compute now resp st1 used k h hk
  cases force with
  | false =>
    cases hl : st.fee.lookup (cache_key chain precise s) with
    | some snap =>
      simp only [get_chain_fee, hl, Except.ok.injEq, Prod.mk.injEq] at h
      obtain ⟨h1, h2, h3⟩ := h
      subst h2
      exact ⟨rfl, rfl⟩
    | none =>
      cases compute with
      | ok c =>
        simp only [get_chain_fee, hl, Except.ok.injEq, Prod.mk.injEq] at h
        obtain ⟨h1, h2, h3⟩ := h
        subst h2
        exact ⟨lookup_setKey_ne _ _ _ _ hk, lookup_setKey_ne _ _ _ _ hk⟩
      | error exc =>
        by_cases hc : exc.isRpcOrHttpError = true
        · cases hs : st.stale.lookup (cache_key chain precise s) with
          | some snap =>
            simp only [get_chain_fee, hl, hs, hc, if_pos, Except.ok.injEq, Prod.mk.injEq] at h
            obtain ⟨h1, h2, h3⟩ := h
            subst h2
            exact ⟨rfl, rfl⟩
          | none =>
            simp only [get_chain_fee, hl, hs, hc, if_pos, Except.ok.injEq, Prod.mk.injEq] at h
            obtain ⟨h1, h2, h3⟩ := h
            subst h2
            exact ⟨rfl, rfl⟩
        · simp only [get_chain_fee, hl, if_neg hc] at h
          exact absurd h (by simp)
  | true =>
    cases hl : (eraseKey st.fee (cache_key chain precise s)).lookup
        (cache_key chain precise s) with
    | some snap =>
      rw [lookup_eraseKey_self] at hl
      exact absurd hl (by simp)
    | none =>
      cases compute with
      | ok c =>
        simp only [get_chain_fee, hl, Except.ok.injEq, Prod.mk.injEq] at h
        obtain ⟨h1, h2, h3⟩ := h
        subst h2
        refine ⟨?_, lookup_setKey_ne _ _ _ _ hk⟩
        rw [lookup_setKey_ne _ _ _ _ hk]
        exact lookup_eraseKey_ne _ _ _ hk
      | error exc =>
        by_cases hc : exc.isRpcOrHttpError = true
        · cases hs : st.stale.lookup (cache_key chain precise s) with
          | some snap =>
            simp only [get_chain_fee, hl, hs, hc, if_pos, Except.ok.injEq, Prod.mk.injEq] at h
            obtain ⟨h1, h2, h3⟩ := h
            subst h2
            exact ⟨lookup_eraseKey_ne _ _ _ hk, rfl⟩
          | none =>
            simp only [get_chain_fee, hl, hs, hc, if_pos, Except.ok.injEq, Prod.mk.injEq] at h
            obtain ⟨h1, h2, h3⟩ := h
            subst h2
            exact ⟨lookup_eraseKey_ne _ _ _ hk, rfl⟩
        · simp only [get_chain_fee, hl, if_neg hc] at h
          exact absurd h (by simp)

/-- C4: while a snapshot for the same key is live in the primary cache, a
second `get_chain_fee` call (same chain, same precision flag, no
`force_refresh`) returns the identical payload and state and performs no
upstream computation (the returned flag is `false`: the network is never
consulted). -/
theorem cache_idempotent_no_refetch :
    ∀ st0 chain s precise c now1 now2 compute2 r1 st1 b1,
      get_chain_fee st0 chain s precise false (.ok c) now1 = .ok (r1, st1, b1) →
      get_chain_fee st1 chain s precise false compute2 now2 = .ok (r1, st1, false) := by
  intro st0 chain s precise c now1 now2 compute2 r1 st1 b1 h
  cases hl : st0.fee.lookup (cache_key chain precise s) with
  | some snap =>
    simp only [get_chain_fee, hl] at h
    simp only [Except.ok.injEq, Prod.mk.injEq] at h
    obtain ⟨h1, h2, h3⟩ := h
    subst h1
    subst h2
    simp only [get_chain_fee, hl]
  | none =>
    simp only [get_chain_fee, hl] at h
    simp only [Except.ok.injEq, Prod.mk.injEq] at h
    obtain ⟨h1, h2, h3⟩ := h
    subst h1
    subst h2
    simp only [get_chain_fee, lookup_setKey_self]

theorem cache_idempotent_no_refetch_witness :
    get_chain_fee stEx chainEx sOff false false (.error fEx) 200 =
      .ok (.payload snapEx.as_payload, stEx, false) :=
  cache_idempotent_no_refetch ⟨[], []⟩ chainEx sOff false cL1ex 100 200 (.error fEx)
    (.payload snapEx.as_payload) stEx true (by decide)

/-- C3: after a successful computation (which fills both caches), if the
primary entry is evicted or expired and the next computation fails with a
caught `RPCError`/`httpx.HTTPError`, `get_chain_fee` returns the
last-known-good snapshot's payload — same native fee — with `stale: true`,
the notes extended by `stale cache (<error class>)`, a sanitized debug
message, no `error` field (the response is a `payload`, never an
`errorPayload`), and it leaves both cache stores untouched, the stored
snapshot included. -/
theorem stale_fallback_degraded :
    ∀ st0 chain s precise c f now1 now2 r1 st1 b1,
      f.isRpcOrHttpError = true →
      st0.fee.lookup (cache_key chain precise s) = none →
      get_chain_fee st0 chain s precise false (.ok c) now1 = .ok (r1, st1, b1) →
      (get_chain_fee ⟨eraseKey st1.fee (cache_key chain precise s), st1.stale⟩ chain s precise
          false (.error f) now2 =
        .ok (.payload (stale_payload ⟨chain, c, now1⟩ f),
          ⟨eraseKey st1.fee (cache_key chain precise s), st1.stale⟩, true))
      ∧ (stale_payload ⟨chain, c, now1⟩ f).native_fee_wei = c.native_fee_wei
      ∧ (stale_payload ⟨chain, c, now1⟩ f).stale = true
      ∧ (stale_payload ⟨chain, c, now1⟩ f).notes =
          combine_notes [(FeeSnapshot.as_payload ⟨chain, c, now1⟩).notes,
            some ("stale cache (" ++ f.className ++ ")")]
      ∧ (stale_payload ⟨chain, c, now1⟩ f).debug_error =
          some (sanitize_error_message f.message)
      ∧ st1.stale.lookup (cache_key chain precise s) = some ⟨chain, c, now1⟩ := by
  intro st0 chain s precise c f now1 now2 r1 st1 b1 hf hnone h
  simp only [get_chain_fee, hnone, Except.ok.injEq, Prod.mk.injEq] at h
  obtain ⟨h1, h2, h3⟩ := h
  subst h2
  refine ⟨?_, rfl, rfl, rfl, rfl, lookup_setKey_self _ _ _⟩
  simp only [get_chain_fee, lookup_eraseKey_self, lookup_setKey_self, hf, if_pos]

theorem stale_fallback_degraded_witness :
    (get_chain_fee ⟨eraseKey stEx.fee (cache_key chainEx false sOff), stEx.stale⟩ chainEx sOff
        false false (.error fEx) 200 =
      .ok (.payload (stale_payload ⟨chainEx, cL1ex, 100⟩ fEx),
        ⟨eraseKey stEx.fee (cache_key chainEx false sOff), stEx.stale⟩, true))
    ∧ (stale_payload ⟨chainEx, cL1ex, 100⟩ fEx).native_fee_wei = cL1ex.native_fee_wei
    ∧ (stale_payload ⟨chainEx, cL1ex, 100⟩ fEx).stale = true
    ∧ (stale_payload ⟨chainEx, cL1ex, 100⟩ fEx).notes =
        combine_notes [(FeeSnapshot.as_payload ⟨chainEx, cL1ex, 100⟩).notes,
          some ("stale cache (" ++ fEx.className ++ ")")]
    ∧ (stale_payload ⟨chainEx, cL1ex, 100⟩ fEx).debug_error =
        some (sanitize_error_message fEx.message)
    ∧ stEx.stale.lookup (cache_key chainEx false sOff) = some ⟨chainEx, cL1ex, 100⟩ :=
  stale_fallback_degraded ⟨[], []⟩ chainEx sOff false cL1ex fEx 100 200
    (.payload snapEx.as_payload) stEx true (by decide) (by decide) (by decide)

/-- C8 counterexample: with the default settings
(`enable_precise_mode = False`), the `precise = true` and
`precise = false` cache keys coincide (`int(precise and enable)` is 0 in
both cases), and a `precise = true` call returns the entry that a
`precise = false` call stored — refuting "distinct cache keys ...
regardless of application settings". -/
theorem precision_cache_independence_cex :
    cache_key chainEx true sOff = cache_key chainEx false sOff
    ∧ get_chain_fee stEx chainEx sOff true false (.error fEx) 200 =
        .ok (.payload snapEx.as_payload, stEx, false) := by
  constructor
  · decide
  · decide

/-- C8 (amended): the two precision flags map to distinct cache keys
exactly when `enable_precise_mode` is on (with it off — the default —
`precise = true` shares the `precise = false` key); and `get_chain_fee`
never reads or overwrites an entry under any key other than its own
`cache_key chain precise settings`. -/
theorem precision_cache_independence_amended :
    (∀ chain s, (cache_key chain true s = cache_key chain false s) ↔
        s.enable_precise_mode = false)
    ∧ ∀ st chain s precise force compute now resp st1 used k,
        get_chain_fee st chain s precise force compute now = .ok (resp, st1, used) →
        k ≠ cache_key chain precise s →
        st1.fee.lookup k = st.fee.lookup k ∧ st1.stale.lookup k = st.stale.lookup k := by
  refine ⟨fun chain s => ?_, gcf_state_isolation⟩
  cases hp : s.enable_precise_mode with
  | false => simp [cache_key, hp]
  | true =>
    refine iff_of_false (fun heq => ?_) (by simp)
    apply append_one_ne_zero (chain.key ++ ":" ++ chain.fee_model ++ ":")
    simpa [cache_key, hp] using heq

theorem precision_cache_independence_witness :
    ((cache_key chainEx true sOn = cache_key chainEx false sOn) ↔
      sOn.enable_precise_mode = false)
    ∧ (stEx.fee.lookup "ethereum:l1:0" = stEx.fee.lookup "ethereum:l1:0"
      ∧ stEx.stale.lookup "ethereum:l1:0" = stEx.stale.lookup "ethereum:l1:0") :=
  ⟨precision_cache_independence_amended.1 chainEx sOn,
   precision_cache_independence_amended.2 stEx chainEx sOff false false (.error fEx) 0
     (.payload snapEx.as_payload) stEx false "ethereum:l1:0" (by decide) (by decide)⟩

/-- C9 counterexample: on an `eth_feeHistory` body whose latest base fee
is `0x3b9aca00` (= 1,000,000,000 wei, one gwei — not three) and whose
latest non-empty reward is `0x77359400` (= 2,000,000,000 wei), the
resolved effective gas price is 3,000,000,000 wei, not the claimed
5,000,000,000, and its gwei rendering is "3.0000", not "5.0000". -/
theorem fee_history_example_cex :
    effective_gas_price fhOkResp mpErrResp gpOkResp 50 =
      .ok (3000000000, "feeHistory(p50)", "eip1559")
    ∧ (3000000000 : Nat) ≠ 5000000000
    ∧ formatScaled 3000000000 9 4 ≠ "5.0000" := by
  refine ⟨by decide, by decide, by decide⟩

/-- C9 (amended): on that `eth_feeHistory` body the effective gas price
is base fee + reward = 3,000,000,000 wei in eip1559 mode (the
`eth_maxPriorityFeePerGas` call is never consulted: the fixture's outcome
for it is an error, yet the result is still `ok`), displayed "3.0000". -/
theorem fee_history_example_amended :
    effective_gas_price fhOkResp mpErrResp gpOkResp 50 =
      .ok (3000000000, "feeHistory(p50)", "eip1559")
    ∧ formatScaled 3000000000 9 4 = "3.0000" := by
  refine ⟨by decide, by decide⟩

/-- C6 counterexample: `get_chain_fee` catches only `RPCError` and
`httpx.HTTPError`.  A malformed RPC result shape raises another class —
here `eth_feeHistory` fails, the legacy fallback's `eth_gasPrice` body
carries the non-hex result `"zz"`, and `int("zz", 16)` raises
`ValueError` inside the `except` handler of `_effective_gas_price` —
and that exception escapes `get_chain_fee` to its caller, refuting
"never lets an exception escape ... including malformed RPC result
shapes". -/
theorem no_exception_escape_cex :
    compute_fee_l1 chainEx estOkResp (.error (RpcFailure.rpc "feeHistory down")) mpErrResp
        gpBadResp 50 = .error (RpcFailure.valueError "zz")
    ∧ exceptEscapes (get_chain_fee ⟨[], []⟩ chainEx sOff false false
        (compute_fee_l1 chainEx estOkResp (.error (RpcFailure.rpc "feeHistory down")) mpErrResp
          gpBadResp 50) 0) = true := by
  refine ⟨by decide, by decide⟩

/-- C6 (amended): `get_chain_fee` lets no exception escape whenever the
computation succeeds, or fails with one of the classes it catches
(`RPCError` / `httpx.HTTPError`) — it then returns a fresh payload, a
stale-degraded payload, or the structured per-chain error payload.
Failures of any other class (e.g. `ValueError`/`KeyError` from malformed
result shapes) are re-raised to the caller. -/
theorem no_exception_escape_amended :
    (∀ st chain s precise force c now,
        exceptEscapes (get_chain_fee st chain s precise force (.ok c) now) = false)
    ∧ ∀ st chain s precise force f now, f.isRpcOrHttpError = true →
        exceptEscapes (get_chain_fee st chain s precise force (.error f) now) = false := by
  constructor
  · intro st chain s precise force c now
    cases force with
    | false =>
      cases hl : st.fee.lookup (cache_key chain precise s) with
      | some snap => simp [get_chain_fee, hl, exceptEscapes]
      | none => simp [get_chain_fee, hl, exceptEscapes]
    | true => simp [get_chain_fee, lookup_eraseKey_self, exceptEscapes]
  · intro st chain s precise force f now hf
    cases force with
    | false =>
      cases hl : st.fee.lookup (cache_key chain precise s) with
      | some snap => simp [get_chain_fee, hl, exceptEscapes]
      | none =>
        cases hs : st.stale.lookup (cache_key chain precise s) with
        | some snap => simp [get_chain_fee, hl, hs, hf, exceptEscapes]
        | none => simp [get_chain_fee, hl, hs, hf, exceptEscapes]
    | true =>
      cases hs : st.stale.lookup (cache_key chain precise s) with
      | some snap => simp [get_chain_fee, lookup_eraseKey_self, hs, hf, exceptEscapes]
      | none => simp [get_chain_fee, lookup_eraseKey_self, hs, hf, exceptEscapes]

theorem no_exception_escape_witness :
    exceptEscapes (get_chain_fee ⟨[], []⟩ chainEx sOff false false (.ok cL1ex) 0) = false
    ∧ exceptEscapes (get_chain_fee ⟨[], []⟩ chainEx sOff false false (.error fEx) 0) = false :=
  ⟨no_exception_escape_amended.1 ⟨[], []⟩ chainEx sOff false false cL1ex 0,
   no_exception_escape_amended.2 ⟨[], []⟩ chainEx sOff false false fEx 0 (by decide)⟩

/-- C7 counterexample: only the stale path sanitizes.  When no
last-known-good entry exists, `get_chain_fee` returns
`_error_payload(chain, str(exc))` with the raw message: a URL embedded in
it — here a credentialed endpoint path — survives verbatim in the
externally visible `error` field, while the claimed sanitization would
have produced the masked form. -/
theorem sanitize_scope_cex :
    get_chain_fee ⟨[], []⟩ chainEx sOff false false (.error (RpcFailure.rpc urlMsg)) 0 =
      .ok (.errorPayload (error_payload chainEx urlMsg), ⟨[], []⟩, true)
    ∧ (error_payload chainEx urlMsg).error = urlMsg
    ∧ sanitize_error_message urlMsg = "RPC https://rpc.avax.example/*** failed"
    ∧ urlMsg ≠ sanitize_error_message urlMsg := by
  refine ⟨by decide, by decide, by decide, by decide⟩

/-- C7 (amended): on a caught failure, the debug message attached to a
stale-degraded payload is sanitized (every embedded URL reduced to
`scheme://host/***`), but the structured per-chain error payload carries
the raw exception message unsanitized. -/
theorem sanitize_scope_amended :
    (∀ st chain s precise f now snap,
        f.isRpcOrHttpError = true →
        st.fee.lookup (cache_key chain precise s) = none →
        st.stale.lookup (cache_key chain precise s) = some snap →
        get_chain_fee st chain s precise false (.error f) now =
          .ok (.payload (stale_payload snap f), st, true)
        ∧ (stale_payload snap f).debug_error = some (sanitize_error_message f.message))
    ∧ ∀ st chain s precise f now,
        f.isRpcOrHttpError = true →
        st.fee.lookup (cache_key chain precise s) = none →
        st.stale.lookup (cache_key chain precise s) = none →
        get_chain_fee st chain s precise false (.error f) now =
          .ok (.errorPayload (error_payload chain f.message), st, true)
        ∧ (error_payload chain f.message).error = f.message := by
  constructor
  · intro st chain s precise f now snap hf hl hs
    refine ⟨?_, rfl⟩
    simp only [get_chain_fee, hl, hs, hf, if_pos]
  · intro st chain s precise f now hf hl hs
    refine ⟨?_, rfl⟩
    simp only [get_chain_fee, hl, hs, hf, if_pos]

theorem sanitize_scope_witness :
    (get_chain_fee ⟨[], stEx.stale⟩ chainEx sOff false false (.error fEx) 200 =
        .ok (.payload (stale_payload snapEx fEx), ⟨[], stEx.stale⟩, true)
      ∧ (stale_payload snapEx fEx).debug_error = some (sanitize_error_message fEx.message))
    ∧ (get_chain_fee ⟨[], []⟩ chainEx sOff false false (.error fEx) 0 =
        .ok (.errorPayload (error_payload chainEx fEx.message), ⟨[], []⟩, true)
      ∧ (error_payload chainEx fEx.message).error = fEx.message) :=
  ⟨sanitize_scope_amended.1 ⟨[], stEx.stale⟩ chainEx sOff false fEx 200 snapEx (by decide)
     (by decide) (by decide),
   sanitize_scope_amended.2 ⟨[], []⟩ chainEx sOff false fEx 0 (by decide) (by decide)
     (by decide)⟩

/-- Peeling one doubled back-off step off the geometric sleep schedule. -/
theorem range_map_double (b : ℚ) (k : Nat) :
    (List.range (k + 1)).map (fun i => b * 2 ^ i) =
      b :: (List.range k).map (fun i => (2 * b) * 2 ^ i) := by
  rw [List.range_succ_eq_map, List.map_cons, List.map_map]
  have hfun : ((fun i => b * 2 ^ i) ∘ Nat.succ) = fun i => (2 * b) * 2 ^ i := by
    funext i
    simp only [Function.comp, pow_succ]
    ring
  rw [hfun]
  simp

/-- Invariant of the `call_rpc` retry loop: starting at any attempt with
`remaining` retries left, some `k ≤ remaining` further attempts are
retried; the sleeps appended are exactly the doubling schedule from the
current back-off; every retried attempt was transient; and the attempt
after the last sleep decides the result. -/
theorem call_rpc_aux_spec (attempts : Nat → HttpAttempt) :
    ∀ remaining attempt (backoff : ℚ) (sleeps0 : List ℚ),
      ∃ k,
        (call_rpc_aux attempts attempt remaining backoff sleeps0).sleeps
            = sleeps0 ++ (List.range k).map (fun i => backoff * 2 ^ i)
        ∧ k ≤ remaining
        ∧ (∀ i, i < k → transientAttempt (attempts (attempt + i)) = true)
        ∧ finalMatches (attempts (attempt + k))
            (call_rpc_aux attempts attempt remaining backoff sleeps0).result := by
  intro remaining
  induction remaining with
  | zero =>
    intro attempt backoff sleeps0
    cases hA : attempts attempt with
    | ok data =>
      have hred : call_rpc_aux attempts attempt 0 backoff sleeps0 =
          ⟨processBody data, sleeps0⟩ := by
        conv_lhs => unfold call_rpc_aux
        simp only [hA]
      refine ⟨0, by rw [hred]; simp, Nat.le_refl 0,
        fun i hi => absurd hi (Nat.not_lt_zero i), ?_⟩
      rw [hred]
      simp [finalMatches, hA]
    | status code msg =>
      have hred : call_rpc_aux attempts attempt 0 backoff sleeps0 =
          ⟨.error (RpcFailure.httpStatusError msg), sleeps0⟩ := by
        conv_lhs => unfold call_rpc_aux
        simp only [hA]
      refine ⟨0, by rw [hred]; simp, Nat.le_refl 0,
        fun i hi => absurd hi (Nat.not_lt_zero i), ?_⟩
      rw [hred]
      simp [finalMatches, hA]
    | connError msg =>
      have hred : call_rpc_aux attempts attempt 0 backoff sleeps0 =
          ⟨.error (RpcFailure.connectError msg), sleeps0⟩ := by
        conv_lhs => unfold call_rpc_aux
        simp only [hA]
      refine ⟨0, by rw [hred]; simp, Nat.le_refl 0,
        fun i hi => absurd hi (Nat.not_lt_zero i), ?_⟩
      rw [hred]
      simp [finalMatches, hA]
  | succ r ih =>
    intro attempt backoff sleeps0
    cases hA : attempts attempt with
    | ok data =>
      have hred : call_rpc_aux attempts attempt (r + 1) backoff sleeps0 =
          ⟨processBody data, sleeps0⟩ := by
        conv_lhs => unfold call_rpc_aux
        simp only [hA]
      refine ⟨0, by rw [hred]; simp, Nat.zero_le _,
        fun i hi => absurd hi (Nat.not_lt_zero i), ?_⟩
      rw [hred]
      simp [finalMatches, hA]
    | status code msg =>
      by_cases hr : retryableStatus code = true
      · have hstep : call_rpc_aux attempts attempt (r + 1) backoff sleeps0 =
            call_rpc_aux attempts (attempt + 1) r (2 * backoff) (sleeps0 ++ [backoff]) := by
          conv_lhs => unfold call_rpc_aux
          simp only [hA, hr, if_true]
        obtain ⟨k, hs, hk, ht, hf⟩ := ih (attempt + 1) (2 * backoff) (sleeps0 ++ [backoff])
        refine ⟨k + 1, ?_, Nat.succ_le_succ hk, ?_, ?_⟩
        · rw [hstep, hs, range_map_double]
          simp [List.append_assoc]
        · intro i hi
          cases i with
          | zero => simpa [transientAttempt, hA] using hr
          | succ j =>
            have hj : j < k := Nat.lt_of_succ_lt_succ hi
            rw [show attempt + (j + 1) = (attempt + 1) + j by omega]
            exact ht j hj
        · rw [hstep, show attempt + (k + 1) = (attempt + 1) + k by omega]
          exact hf
      · have hred : call_rpc_aux attempts attempt (r + 1) backoff sleeps0 =
            ⟨.error (RpcFailure.httpStatusError msg), sleeps0⟩ := by
          conv_lhs => unfold call_rpc_aux
          simp only [hA, hr, if_false]
          simp [hr]
        refine ⟨0, by rw [hred]; simp, Nat.zero_le _,
          fun i hi => absurd hi (Nat.not_lt_zero i), ?_⟩
        rw [hred]
        simp [finalMatches, hA]
    | connError msg =>
      have hstep : call_rpc_aux attempts attempt (r + 1) backoff sleeps0 =
          call_rpc_aux attempts (attempt + 1) r (2 * backoff) (sleeps0 ++ [backoff]) := by
        conv_lhs => unfold call_rpc_aux
        simp only [hA]
      obtain ⟨k, hs, hk, ht, hf⟩ := ih (attempt + 1) (2 * backoff) (sleeps0 ++ [backoff])
      refine ⟨k + 1, ?_, Nat.succ_le_succ hk, ?_, ?_⟩
      · rw [hstep, hs, range_map_double]
        simp [List.append_assoc]
      · intro i hi
        cases i with
        | zero => simp [transientAttempt, hA]
        | succ j =>
          have hj : j < k := Nat.lt_of_succ_lt_succ hi
          rw [show attempt + (j + 1) = (attempt + 1) + j by omega]
          exact ht j hj
      · rw [hstep, show attempt + (k + 1) = (attempt + 1) + k by omega]
        exact hf

/-- C5 counterexample: a response whose top-level `error` value is not an
object does *not* raise `RPCError`: on the body `{"error": "boom"}`,
`data["error"].get(...)` (rpc.py:40) raises `AttributeError` — a
different, uncaught class — immediately and with no retry, refuting the
claim's "a response containing a top-level `error` field raises RPCError
immediately". -/
theorem call_rpc_error_field_cex :
    raisedFailure (call_rpc (fun _ => HttpAttempt.ok (.obj [("error", .str "boom")]))) =
      some (RpcFailure.attrNoGet (.str "boom"))
    ∧ (call_rpc (fun _ => HttpAttempt.ok (.obj [("error", .str "boom")]))).sleeps = []
    ∧ (RpcFailure.attrNoGet (.str "boom")).className = "AttributeError"
    ∧ (RpcFailure.attrNoGet (.str "boom")).className ≠ "RPCError"
    ∧ (RpcFailure.attrNoGet (.str "boom")).isRpcOrHttpError = false := by
  refine ⟨by decide, by decide, by decide, by decide, by decide⟩

/-- C5 (amended): the retry policy of `call_rpc` (defaults `retries = 2`,
`initial_backoff = 0.5`, visible on the definition): at most `retries`
retries happen; the sleeps are exactly `initial_backoff * 2^i`, the
back-off doubling before each retry; a request is retried only on a
connection error or an HTTP status in {429, 500, 502, 503, 504} (every
slept-over attempt is transient); and the first non-retried attempt
decides the outcome via `processBody` — a body with an *object-valued*
top-level `error` member raises `RPCError` at once, no retry (final
conjunct); an `error` member of any other shape raises an uncaught
`AttributeError` instead (see the counterexample); a non-retryable status
or an exhausted transient error is re-raised to the caller. -/
theorem call_rpc_retry_policy :
    (∀ (attempts : Nat → HttpAttempt) (retries : Nat) (b : ℚ),
      (call_rpc attempts retries b).sleeps.length ≤ retries
      ∧ (call_rpc attempts retries b).sleeps =
          (List.range (call_rpc attempts retries b).sleeps.length).map (fun i => b * 2 ^ i)
      ∧ (List.range (call_rpc attempts retries b).sleeps.length).all
          (fun i => transientAttempt (attempts i)) = true
      ∧ finalMatches (attempts (call_rpc attempts retries b).sleeps.length)
          (call_rpc attempts retries b).result)
    ∧ ∀ (efs fs : List (String × Jv)),
        processBody (.obj (("error", Jv.obj efs) :: fs)) =
          .error (RpcFailure.rpc (rpcErrorMessage efs)) := by
  constructor
  · intro attempts retries b
    obtain ⟨k, hs, hk, ht, hf⟩ := call_rpc_aux_spec attempts retries 0 b []
    have hcall : call_rpc attempts retries b = call_rpc_aux attempts 0 retries b [] := rfl
    have hlen : (call_rpc attempts retries b).sleeps.length = k := by
      rw [hcall, hs]
      simp
    refine ⟨?_, ?_, ?_, ?_⟩
    · rw [hlen]
      exact hk
    · rw [hlen, hcall, hs]
      simp
    · rw [hlen, List.all_eq_true]
      intro i hi
      simpa using ht i (List.mem_range.mp hi)
    · rw [hlen, hcall]
      simpa using hf
  · intro efs fs
    simp [processBody, List.lookup]

end GasDash
